import Mathlib

/-!
Verification development for the CircuitAPI emotion-analysis service.

The definitions below are a shallow embedding of the JavaScript source:

* `src/api/emotion-engine-db.js` — the `EmotionEngine` class: tiered word
  resolution (`getWordData`), persistence (`saveWordToDatabase`), per-word
  dominant emotion (`getDominantEmotion`) and the text-level aggregation
  (`calculateOverallEmotion`).
* `src/unnamed/part_001` — the session service; in particular the
  `POST /v1/sessions/:sessionId/end` handler (mood summary, sentiment
  trend, duration, one-way active → ended transition).

JavaScript numbers are modelled as rationals (`ℚ`); the idiom `x || d`
on numbers (which replaces `0`, `undefined` and `null` by `d`) is
modelled by `jsNum`; optional object fields are `Option`s.  Object-key
iteration order over the emotion records is the fixed declaration order
`joy, trust, anticipation, surprise, anger, fear, sadness, disgust`,
which is what JavaScript guarantees for the string-keyed literals used
throughout the source.
-/

namespace Circuit

/-- The eight Plutchik emotion categories, in the declaration order used by
every emotion object literal in the source. -/
inductive Emotion where
  | joy | trust | anticipation | surprise | anger | fear | sadness | disgust
deriving DecidableEq, Repr, Fintype

/-- The JavaScript object key for each category. -/
def emotionName : Emotion → String
  | .joy => "joy"
  | .trust => "trust"
  | .anticipation => "anticipation"
  | .surprise => "surprise"
  | .anger => "anger"
  | .fear => "fear"
  | .sadness => "sadness"
  | .disgust => "disgust"

/-- Position of a category in declaration order. -/
def emotionIdx : Emotion → ℕ
  | .joy => 0
  | .trust => 1
  | .anticipation => 2
  | .surprise => 3
  | .anger => 4
  | .fear => 5
  | .sadness => 6
  | .disgust => 7

/-- `Object.keys` order of the emotion literals in the source. -/
def emotionOrder : List Emotion :=
  [.joy, .trust, .anticipation, .surprise, .anger, .fear, .sadness, .disgust]

/-- An emotion-probability object: a JavaScript object that may lack some
of the eight keys (a missing key reads as `undefined`). -/
def Probs : Type := Emotion → Option ℚ

/-- JavaScript `x || d` on a (possibly missing) number: `undefined`/`null`
and `0` are falsy and give `d`. -/
def jsNum (x : Option ℚ) (d : ℚ) : ℚ :=
  match x with
  | none => d
  | some v => if v = 0 then d else v

/-- JavaScript `s || d` on a (possibly missing) string: `undefined`/`null`
and the empty string are falsy and give `d`. -/
def jsStr (x : Option String) (d : String) : String :=
  match x with
  | none => d
  | some s => if s = "" then d else s

/-- VAD triple (`valence`, `arousal`, `dominance`). -/
structure VAD where
  valence : ℚ
  arousal : ℚ
  dominance : ℚ
deriving DecidableEq, Repr

/-- Sentiment record (`polarity`, `strength`). -/
structure Senti where
  polarity : String
  strength : ℚ
deriving DecidableEq, Repr

/-- One entry of the `wordAnalyses` array built by `analyzeText`
(src/api/emotion-engine-db.js, lines 216–248): per-token analysis record.
`emotion_probs` is absent (`undefined`) on not-found words. -/
structure WordAnalysis where
  word : String
  clean_word : String
  emotion : String
  confidence : ℚ
  valence : ℚ
  arousal : ℚ
  sentiment : String
  found : Bool
  source : String
  emotion_probs : Option Probs

/-- `wordData.emotion_probs || {}` (line 469): a missing field reads as the
empty object, i.e. every key missing. -/
def probsOf (w : WordAnalysis) : Probs :=
  match w.emotion_probs with
  | none => fun _ => none
  | some p => p

/-- The filter predicate of line 450:
`w.found && w.confidence > 0.25`. -/
def significant (w : WordAnalysis) : Bool :=
  w.found && decide (w.confidence > 1/4)

/-- `wordAnalyses.filter(w => w.found && w.confidence > 0.25)` (line 450). -/
def confidentWords (ws : List WordAnalysis) : List WordAnalysis :=
  ws.filter significant

/-- The amplification factor of line 470:
`wordData.confidence > 0.5 ? 3.0 : wordData.confidence > 0.3 ? 2.5 : 2.0`. -/
def amp (c : ℚ) : ℚ :=
  if c > 1/2 then 3 else if c > 3/10 then 5/2 else 2

/-- The amount added to `emotionWeights[emotion]` for one confident word
(lines 472–473): `base = probs[emotion] || 0.125`, amplified exactly when
`emotion === wordData.emotion`. -/
def contrib (w : WordAnalysis) (e : Emotion) : ℚ :=
  let base := jsNum (probsOf w e) (1/8)
  if emotionName e = w.emotion then base * amp w.confidence else base

/-- The running total `emotionWeights[e]` after the loop of lines 468–475,
accumulated over the given (already filtered) word list. -/
def emotionWeights (cws : List WordAnalysis) (e : Emotion) : ℚ :=
  cws.foldl (fun acc w => acc + contrib w e) 0

/-- `total = Object.values(emotionWeights).reduce((a, b) => a + b, 0)`
(line 477). -/
def totalWeight (cws : List WordAnalysis) : ℚ :=
  (emotionOrder.map (emotionWeights cws)).sum

/-- The normalized distribution of lines 478–481:
`emotions[e] = total > 0 ? emotionWeights[e] / total : 0.125`. -/
def normEmotions (cws : List WordAnalysis) (e : Emotion) : ℚ :=
  if totalWeight cws > 0 then emotionWeights cws e / totalWeight cws else 1/8

/-- One step of `Object.keys(emotions).reduce((a, b) => emotions[a] > emotions[b] ? a : b)`
(line 483). -/
def pickStep (f : Emotion → ℚ) (a b : Emotion) : Emotion :=
  if f a > f b then a else b

/-- The whole `reduce` of line 483: fold over the seven remaining keys
starting from the first key `joy`. -/
def dominantOf (f : Emotion → ℚ) : Emotion :=
  List.foldl (pickStep f)
    Emotion.joy
    [Emotion.trust, Emotion.anticipation, Emotion.surprise, Emotion.anger,
     Emotion.fear, Emotion.sadness, Emotion.disgust]

/-- The per-word dominant emotion, `getDominantEmotion` (lines 386–396):
running strict maximum over `Object.entries(emotionProbs)` starting from
`('neutral', 0)`; missing keys are skipped. -/
def getDominantEmotion (probs : Probs) : String × ℚ :=
  emotionOrder.foldl
    (fun acc e =>
      match probs e with
      | none => acc
      | some p => if p > acc.2 then (emotionName e, p) else acc)
    ("neutral", 0)

/-- The result object of `calculateOverallEmotion` (debug fields omitted). -/
structure TextResult where
  overall_emotion : String
  confidence : ℚ
  emotions : Emotion → ℚ
  word_analysis : List WordAnalysis
  word_count : ℕ
  analyzed_words : ℕ
  coverage : ℚ
  vad : VAD
  sentiment : Senti

/-- `calculateOverallEmotion(wordAnalyses, text)`
(src/api/emotion-engine-db.js, lines 449–505). -/
def calculateOverallEmotion (wordAnalyses : List WordAnalysis) : TextResult :=
  let confident := confidentWords wordAnalyses
  if confident.isEmpty then
    { overall_emotion := "neutral"
      confidence := 1/8
      emotions := fun _ => 1/8
      word_analysis := wordAnalyses
      word_count := wordAnalyses.length
      analyzed_words := 0
      coverage := 0
      vad := ⟨1/2, 1/2, 1/2⟩
      sentiment := ⟨"neutral", 1/2⟩ }
  else
    let emo := normEmotions confident
    let dom := dominantOf emo
    let pos := (confident.filter (fun w => w.sentiment == "positive")).length
    let neg := (confident.filter (fun w => w.sentiment == "negative")).length
    { overall_emotion := emotionName dom
      confidence := emo dom
      emotions := emo
      word_analysis := wordAnalyses
      word_count := wordAnalyses.length
      analyzed_words := confident.length
      coverage := (confident.length : ℚ) / (wordAnalyses.length : ℚ)
      vad := ⟨(confident.map (·.valence)).sum / (confident.length : ℚ),
              (confident.map (·.arousal)).sum / (confident.length : ℚ),
              1/2⟩
      sentiment := ⟨if pos > neg then "positive"
                    else if neg > pos then "negative" else "neutral", 1/2⟩ }

/-! ## Word resolution (`getWordData`, lines 118–167) -/

/-- The emotional profile shape stored in the cache and returned by the
database / inference tiers (`vad`, `emotion_probs`, `sentiment`). -/
structure EmotionData where
  vad : VAD
  emotion_probs : Probs
  sentiment : Senti

/-- A row of the `words` table (emotion columns only; identity and
timestamps are irrelevant to the embedded behaviour). -/
structure DBRow where
  valence : ℚ
  arousal : ℚ
  dominance : ℚ
  emotion_joy : ℚ
  emotion_trust : ℚ
  emotion_anticipation : ℚ
  emotion_surprise : ℚ
  emotion_anger : ℚ
  emotion_fear : ℚ
  emotion_sadness : ℚ
  emotion_disgust : ℚ
  sentiment_polarity : String
  sentiment_strength : ℚ
deriving DecidableEq, Repr

/-- The `emotionData` object built from a database row (lines 135–155);
every emotion key is present. -/
def rowToEmotionData (row : DBRow) : EmotionData where
  vad := ⟨row.valence, row.arousal, row.dominance⟩
  emotion_probs := fun e =>
    some (match e with
      | .joy => row.emotion_joy
      | .trust => row.emotion_trust
      | .anticipation => row.emotion_anticipation
      | .surprise => row.emotion_surprise
      | .anger => row.emotion_anger
      | .fear => row.emotion_fear
      | .sadness => row.emotion_sadness
      | .disgust => row.emotion_disgust)
  sentiment := ⟨row.sentiment_polarity, row.sentiment_strength⟩

/-- `word.toLowerCase()`: character-wise lowercasing. -/
def toLowerCase (s : String) : String :=
  ⟨s.data.map Char.toLower⟩

/-- The value returned by `getWordData`, together with the in-process cache
after the call and the number of database queries the call issued. -/
structure ResolveResult where
  data : Option EmotionData
  source : String
  cache : String → Option EmotionData
  dbQueries : ℕ

/-- `getWordData(word)` (lines 118–167).  The in-process `wordCache` is the
`cache` argument, keyed by the lowercased word; the `words` table is the
`db` argument, keyed by the lowercased stored word (the SQL matches
`LOWER(word) = $1`).  A memory-cache hit returns immediately with no
database query; a database hit populates the cache; a miss leaves the
cache unchanged. -/
def getWordData (cache : String → Option EmotionData)
    (db : String → Option DBRow) (word : String) : ResolveResult :=
  let cleanWord := toLowerCase word
  match cache cleanWord with
  | some d => ⟨some d, "memory_cache", cache, 0⟩
  | none =>
    match db cleanWord with
    | some row =>
      let d := rowToEmotionData row
      ⟨some d, "database", fun w => if w = cleanWord then some d else cache w, 1⟩
    | none => ⟨none, "not_found", cache, 1⟩

/-- Within `analyzeText` (lines 203–249) a word is pushed onto
`unknownWords` — and hence becomes a candidate for a DeepSeek inference
call — exactly when resolution returned no data. -/
def needsInference (r : ResolveResult) : Bool :=
  r.data.isNone

/-! ## Persistence (`saveWordToDatabase`, lines 329–365) -/

/-- The `emotionData` argument of `saveWordToDatabase`: each sub-object is
reached through optional chaining (`emotionData.vad?.valence || 0.5` …),
so each may be absent. -/
structure SaveData where
  vad : Option VAD
  emotion_probs : Option Probs
  sentiment : Option Senti

/-- The row written by the `INSERT … ON CONFLICT (word) DO UPDATE` of
lines 331–359, with the source's `|| default` fallbacks applied
field by field. -/
def savedRow (d : SaveData) : DBRow where
  valence := jsNum (d.vad.map VAD.valence) (1/2)
  arousal := jsNum (d.vad.map VAD.arousal) (1/2)
  dominance := jsNum (d.vad.map VAD.dominance) (1/2)
  emotion_joy := jsNum (d.emotion_probs.bind fun p => p .joy) (1/8)
  emotion_trust := jsNum (d.emotion_probs.bind fun p => p .trust) (1/8)
  emotion_anticipation := jsNum (d.emotion_probs.bind fun p => p .anticipation) (1/8)
  emotion_surprise := jsNum (d.emotion_probs.bind fun p => p .surprise) (1/8)
  emotion_anger := jsNum (d.emotion_probs.bind fun p => p .anger) (1/8)
  emotion_fear := jsNum (d.emotion_probs.bind fun p => p .fear) (1/8)
  emotion_sadness := jsNum (d.emotion_probs.bind fun p => p .sadness) (1/8)
  emotion_disgust := jsNum (d.emotion_probs.bind fun p => p .disgust) (1/8)
  sentiment_polarity := jsStr (d.sentiment.map Senti.polarity) "neutral"
  sentiment_strength := jsNum (d.sentiment.map Senti.strength) (1/2)

/-- `saveWordToDatabase(word, emotionData)` (lines 329–365) as a store
transformer: `ON CONFLICT (word) DO UPDATE SET …` writes the new row
whether or not the word already has one. -/
def saveWordToDatabase (store : String → Option DBRow) (word : String)
    (d : SaveData) : String → Option DBRow :=
  fun w => if w = word then some (savedRow d) else store w

/-! ## Session end (`POST /v1/sessions/:sessionId/end`,
src/unnamed/part_001, lines 1236–1396) -/

/-- One row of `session_messages` as read back at session end
(line 1263: `SELECT overall_emotion, confidence, emotions, vad, sentiment`).
`emotions` and `vad` are JSON columns that are defended with
`|| {}` / optional chaining, so both are modelled as optional. -/
structure SessionMessage where
  overall_emotion : String
  confidence : ℚ
  emotions : Option Probs
  vad : Option VAD
  sentiment : Option Senti

/-- `vad?.valence || 0.5` for one message (lines 1295 and 1317–1323). -/
def msgValence (m : SessionMessage) : ℚ :=
  jsNum (m.vad.map VAD.valence) (1/2)

/-- The sentiment-trend computation of lines 1277 and 1310–1328: `stable`
unless there are at least 4 messages; with ≥ 4 messages, split at
`Math.floor(n / 2)`, average each half's `vad?.valence || 0.5`, and
classify `diff = secondValence - firstValence`. -/
def sentimentTrend (msgs : List SessionMessage) : String :=
  if 4 ≤ msgs.length then
    let mid := msgs.length / 2
    let firstHalf := msgs.take mid
    let secondHalf := msgs.drop mid
    let firstValence := (firstHalf.map msgValence).sum / (firstHalf.length : ℚ)
    let secondValence := (secondHalf.map msgValence).sum / (secondHalf.length : ℚ)
    let diff := secondValence - firstValence
    if diff > 1/10 then "improving"
    else if diff < -(1/10) then "declining"
    else "stable"
  else "stable"

/-- The recency weight of message `i` of `n` (line 1281):
`1 + (i / n)`. -/
def recencyWeight (n i : ℕ) : ℚ :=
  1 + (i : ℚ) / (n : ℚ)

/-- `totalWeight = weights.reduce((a, b) => a + b, 0)` (line 1282). -/
def totalRecencyWeight (n : ℕ) : ℚ :=
  ((List.range n).map (recencyWeight n)).sum

/-- The per-message emotion score added into `emotionBreakdown` (lines
1289–1293): present keys contribute their value, missing keys (and a
missing `emotions` object) contribute nothing. -/
def msgEmotionScore (m : SessionMessage) (e : Emotion) : ℚ :=
  match m.emotions with
  | none => 0
  | some p => (p e).getD 0

/-- `emotionBreakdown[e]` after the forEach of lines 1284–1298. -/
def emotionBreakdown (msgs : List SessionMessage) (e : Emotion) : ℚ :=
  (msgs.enum.map fun p =>
    msgEmotionScore p.2 e *
      (recencyWeight msgs.length p.1 / totalRecencyWeight msgs.length)).sum

/-- Weighted average of `vad?.valence || 0.5`: `avgValence` starts at 0.5,
accumulates `value * weight`, then has the initial 0.5 subtracted
(lines 1274, 1295, 1301). -/
def avgValenceOf (msgs : List SessionMessage) : ℚ :=
  (1/2 + (msgs.enum.map fun p =>
    msgValence p.2 *
      (recencyWeight msgs.length p.1 / totalRecencyWeight msgs.length)).sum) - 1/2

/-- Same for `vad?.arousal || 0.5`. -/
def avgArousalOf (msgs : List SessionMessage) : ℚ :=
  (1/2 + (msgs.enum.map fun p =>
    jsNum (p.2.vad.map VAD.arousal) (1/2) *
      (recencyWeight msgs.length p.1 / totalRecencyWeight msgs.length)).sum) - 1/2

/-- Same for `vad?.dominance || 0.5`. -/
def avgDominanceOf (msgs : List SessionMessage) : ℚ :=
  (1/2 + (msgs.enum.map fun p =>
    jsNum (p.2.vad.map VAD.dominance) (1/2) *
      (recencyWeight msgs.length p.1 / totalRecencyWeight msgs.length)).sum) - 1/2

/-- `Object.entries(emotionBreakdown).sort(([,a],[,b]) => b - a)[0][0]`
(lines 1306–1307): a stable descending sort puts the first declared
maximum first, so the result is the earliest category attaining the
maximum. -/
def firstMaxEmotion (f : Emotion → ℚ) : Emotion :=
  List.foldl (fun a b => if f b > f a then b else a)
    Emotion.joy
    [Emotion.trust, Emotion.anticipation, Emotion.surprise, Emotion.anger,
     Emotion.fear, Emotion.sadness, Emotion.disgust]

/-- The stored `sessions` row (columns touched by the end-session
handler). Times are epoch milliseconds. -/
structure SessionRow where
  id : String
  status : String
  started_at : ℤ
  ended_at : Option ℤ
  duration_seconds : Option ℤ
  overall_mood : Option String
  mood_confidence : Option ℚ
  avg_valence : Option ℚ
  avg_arousal : Option ℚ
  avg_dominance : Option ℚ
  sentiment_trend : Option String
deriving DecidableEq, Repr

/-- The `summary` object of the end-session response (lines 1377–1387). -/
structure SessionSummary where
  overall_mood : String
  mood_confidence : ℚ
  emotion_breakdown : Emotion → ℚ
  avg_valence : ℚ
  avg_arousal : ℚ
  avg_dominance : ℚ
  sentiment_trend : String
  duration_seconds : ℤ
  message_count : ℕ

/-- The end-session computation for a fetched session row (lines
1253–1388).  `now` is the wall-clock instant (`new Date()`) in epoch
milliseconds.  A non-active session is rejected with
`Session is already ended` before anything is computed or written;
otherwise the summary defaults (neutral mood, confidence 0.125, averages
0.5, stable trend, zero breakdown) are overridden only when at least one
message exists, the duration is
`Math.floor((now - started_at) / 1000)`, and the row is updated to
`ended` with the summary fields. -/
def endSession (session : SessionRow) (msgs : List SessionMessage)
    (now : ℤ) : Except String (SessionRow × SessionSummary) :=
  if session.status ≠ "active" then
    .error "Session is already ended"
  else
    let n := msgs.length
    let breakdown : Emotion → ℚ :=
      if n > 0 then emotionBreakdown msgs else fun _ => 0
    let overallMood : String :=
      if n > 0 then emotionName (firstMaxEmotion (emotionBreakdown msgs))
      else "neutral"
    let moodConfidence : ℚ :=
      if n > 0 then emotionBreakdown msgs (firstMaxEmotion (emotionBreakdown msgs))
      else 1/8
    let av : ℚ := if n > 0 then avgValenceOf msgs else 1/2
    let aa : ℚ := if n > 0 then avgArousalOf msgs else 1/2
    let ad : ℚ := if n > 0 then avgDominanceOf msgs else 1/2
    let trend : String := if n > 0 then sentimentTrend msgs else "stable"
    let durationSeconds : ℤ := Int.fdiv (now - session.started_at) 1000
    let summary : SessionSummary :=
      { overall_mood := overallMood
        mood_confidence := moodConfidence
        emotion_breakdown := breakdown
        avg_valence := av
        avg_arousal := aa
        avg_dominance := ad
        sentiment_trend := trend
        duration_seconds := durationSeconds
        message_count := n }
    let row : SessionRow :=
      { session with
        status := "ended"
        ended_at := some now
        duration_seconds := some durationSeconds
        overall_mood := some overallMood
        mood_confidence := some moodConfidence
        avg_valence := some av
        avg_arousal := some aa
        avg_dominance := some ad
        sentiment_trend := some trend }
    .ok (row, summary)

/-- The whole endpoint as a transition on the sessions store: look the
session up (404 if absent), run `endSession`, and on success write the
updated row back (lines 1241–1260 and 1335–1360). -/
def applyEndSession (store : String → Option SessionRow) (sessionId : String)
    (msgs : List SessionMessage) (now : ℤ) :
    (String → Option SessionRow) × Except String SessionSummary :=
  match store sessionId with
  | none => (store, .error "Session not found")
  | some s =>
    match endSession s msgs now with
    | .error e => (store, .error e)
    | .ok (row, summary) =>
      (fun w => if w = sessionId then some row else store w, .ok summary)

/-! ## Concrete inputs used by witnesses and counterexamples -/

/-- A token the resolver could not find (lines 238–248 of `analyzeText`). -/
def notFoundWord : WordAnalysis :=
  ⟨"zzz", "zzz", "neutral", 1/8, 1/2, 1/2, "neutral", false, "not_found", none⟩

/-- A profile whose dominant category (`joy`) holds probability 1/2 and the
other seven hold 1/14 each. -/
def halfJoyProbs : Probs :=
  fun e => some (match e with | .joy => 1/2 | _ => 1/14)

/-- A found word whose confidence is exactly 0.5, dominant category `joy`. -/
def halfConfWord : WordAnalysis :=
  ⟨"glad", "glad", "joy", 1/2, 7/10, 1/2, "positive", true, "database", some halfJoyProbs⟩

/-- Profile with `joy` at 2/5, `trust` at 1/10, the mirror of
`tieProbsB`; sums to 1. -/
def tieProbsA : Probs :=
  fun e => some (match e with
    | .joy => 2/5 | .trust => 1/10 | .sadness => 1/20 | .disgust => 1/20
    | _ => 1/10)

/-- Profile with `trust` at 2/5, `joy` at 1/10, the mirror of
`tieProbsA`; sums to 1. -/
def tieProbsB : Probs :=
  fun e => some (match e with
    | .trust => 2/5 | .joy => 1/10 | .sadness => 1/20 | .disgust => 1/20
    | _ => 1/10)

/-- Found word dominated by `joy` at confidence 2/5. -/
def tieWordA : WordAnalysis :=
  ⟨"alpha", "alpha", "joy", 2/5, 1/2, 1/2, "neutral", true, "database", some tieProbsA⟩

/-- Found word dominated by `trust` at confidence 2/5. -/
def tieWordB : WordAnalysis :=
  ⟨"beta", "beta", "trust", 2/5, 1/2, 1/2, "neutral", true, "database", some tieProbsB⟩

/-- The hand-computed running totals for `[tieWordA, tieWordB]`. -/
def tieWeights : Emotion → ℚ
  | .joy => 11/10
  | .trust => 11/10
  | .sadness => 1/10
  | .disgust => 1/10
  | _ => 1/5

/-- A qualifying positive-labelled word. -/
def posWord : WordAnalysis :=
  ⟨"good", "good", "joy", 2/5, 7/10, 1/2, "positive", true, "database", some tieProbsA⟩

/-- A qualifying neutral-labelled word. -/
def neutralWordA : WordAnalysis :=
  ⟨"table", "table", "joy", 2/5, 1/2, 1/2, "neutral", true, "database", some tieProbsA⟩

/-- Another qualifying neutral-labelled word. -/
def neutralWordB : WordAnalysis :=
  ⟨"chair", "chair", "joy", 2/5, 1/2, 1/2, "neutral", true, "database", some tieProbsA⟩

/-- A word profile missing its `disgust` key entirely. -/
def gappyProbs : Probs :=
  fun e => match e with
    | .disgust => none
    | .joy => some (2/5)
    | _ => some (1/10)

/-- A qualifying word carrying `gappyProbs`. -/
def gappyWord : WordAnalysis :=
  ⟨"mixed", "mixed", "joy", 2/5, 1/2, 1/2, "neutral", true, "database", some gappyProbs⟩

/-- A cached emotional profile. -/
def cachedData : EmotionData :=
  ⟨⟨7/10, 3/5, 1/2⟩, halfJoyProbs, ⟨"positive", 3/5⟩⟩

/-- An in-process cache holding only `happy`. -/
def cacheEx : String → Option EmotionData :=
  fun s => if s = "happy" then some cachedData else none

/-- An empty persistent store. -/
def emptyDb : String → Option DBRow :=
  fun _ => none

/-- A curated row for `happy` as it sits in the `words` table. -/
def curatedRow : DBRow :=
  ⟨9/10, 3/5, 1/2, 3/5, 1/10, 1/20, 1/20, 1/20, 1/20, 1/20, 1/20, "positive", 4/5⟩

/-- A store holding the curated row for `happy`. -/
def wordStoreEx : String → Option DBRow :=
  fun s => if s = "happy" then some curatedRow else none

/-- An inference result for `happy` that disagrees with the curated row. -/
def inferredData : SaveData :=
  ⟨some ⟨1/10, 1/2, 1/2⟩,
   some (fun e => some (match e with | .sadness => 3/5 | .joy => 1/20 | _ => 1/20)),
   some ⟨"negative", 7/10⟩⟩

/-- A session message whose only relevant content is its valence. -/
def mkTrendMsg (v : ℚ) : SessionMessage :=
  ⟨"neutral", 1/8, none, some ⟨v, 1/2, 1/2⟩, none⟩

/-- Two messages with extreme valences: too few for trend analysis. -/
def twoMsgs : List SessionMessage :=
  [mkTrendMsg (1/10), mkTrendMsg (9/10)]

/-- The spec's five-message example: valences 0.3, 0.3, 0.3, 0.8, 0.8. -/
def fiveMsgs : List SessionMessage :=
  [mkTrendMsg (3/10), mkTrendMsg (3/10), mkTrendMsg (3/10),
   mkTrendMsg (8/10), mkTrendMsg (8/10)]

/-- An active session started at epoch 0 with no summary fields yet. -/
def activeSession : SessionRow :=
  ⟨"sess_1", "active", 0, none, none, none, none, none, none, none, none⟩

/-- A session that has already been ended. -/
def endedSession : SessionRow :=
  ⟨"sess_2", "ended", 0, some 60000, some 60, some "joy", some (3/10),
   some (3/5), some (1/2), some (1/2), some "stable"⟩

/-- A session store holding only the ended session. -/
def sessionStoreEx : String → Option SessionRow :=
  fun s => if s = "sess_2" then some endedSession else none

/-- The summary the handler produces for a session with no messages:
neutral mood at confidence 0.125, zero breakdown, 0.5 averages, stable
trend, and the floor of the elapsed wall-clock seconds as duration. -/
def neutralSummary (s : SessionRow) (now : ℤ) : SessionSummary :=
  { overall_mood := "neutral"
    mood_confidence := 1/8
    emotion_breakdown := fun _ => 0
    avg_valence := 1/2
    avg_arousal := 1/2
    avg_dominance := 1/2
    sentiment_trend := "stable"
    duration_seconds := Int.fdiv (now - s.started_at) 1000
    message_count := 0 }

/-- The row written back for a session ended with no messages. -/
def endedNeutralRow (s : SessionRow) (now : ℤ) : SessionRow :=
  { s with
    status := "ended"
    ended_at := some now
    duration_seconds := some (Int.fdiv (now - s.started_at) 1000)
    overall_mood := some "neutral"
    mood_confidence := some (1/8)
    avg_valence := some (1/2)
    avg_arousal := some (1/2)
    avg_dominance := some (1/2)
    sentiment_trend := some "stable" }

/-! ## Theorems -/

/-- Helper: if no word is both found and above the significance threshold,
the filter of line 450 keeps nothing. -/
theorem confidentWords_eq_nil {ws : List WordAnalysis}
    (h : ∀ w ∈ ws, ¬(w.found = true ∧ w.confidence > 1/4)) :
    confidentWords ws = [] := by
  rw [confidentWords, List.filter_eq_nil_iff]
  intro w hw
  have hne := h w hw
  simp only [significant, Bool.and_eq_true, decide_eq_true_eq]
  tauto

/-- C1: when no word analysis is both `found` and of confidence strictly
above 0.25, `calculateOverallEmotion` returns the fixed neutral result:
emotion `neutral`, confidence 0.125, all eight categories at 0.125,
VAD (0.5, 0.5, 0.5), neutral sentiment polarity, `analyzed_words` 0 and
coverage 0. -/
theorem calculateOverallEmotion_all_neutral (ws : List WordAnalysis)
    (h : ∀ w ∈ ws, ¬(w.found = true ∧ w.confidence > 1/4)) :
    (calculateOverallEmotion ws).overall_emotion = "neutral" ∧
    (calculateOverallEmotion ws).confidence = 1/8 ∧
    (∀ e : Emotion, (calculateOverallEmotion ws).emotions e = 1/8) ∧
    (calculateOverallEmotion ws).vad = ⟨1/2, 1/2, 1/2⟩ ∧
    (calculateOverallEmotion ws).sentiment.polarity = "neutral" ∧
    (calculateOverallEmotion ws).analyzed_words = 0 ∧
    (calculateOverallEmotion ws).coverage = 0 := by
  have hnil : confidentWords ws = [] := confidentWords_eq_nil h
  simp [calculateOverallEmotion, hnil]

/-- C1 witness: a list holding one not-found word hits the neutral
branch. -/
theorem calculateOverallEmotion_all_neutral_witness :
    (calculateOverallEmotion [notFoundWord]).overall_emotion = "neutral" ∧
    (calculateOverallEmotion [notFoundWord]).confidence = 1/8 ∧
    (calculateOverallEmotion [notFoundWord]).emotions Emotion.joy = 1/8 ∧
    (calculateOverallEmotion [notFoundWord]).vad = ⟨1/2, 1/2, 1/2⟩ ∧
    (calculateOverallEmotion [notFoundWord]).sentiment.polarity = "neutral" ∧
    (calculateOverallEmotion [notFoundWord]).analyzed_words = 0 ∧
    (calculateOverallEmotion [notFoundWord]).coverage = 0 := by
  have h := calculateOverallEmotion_all_neutral [notFoundWord] (by decide)
  exact ⟨h.1, h.2.1, h.2.2.1 Emotion.joy, h.2.2.2⟩

/-- C2 (amended): a qualifying word's dominant-category term in the
weighted sum is its base probability times `amp confidence`, and the
amplification thresholds are strict: factor 3.0 only for confidence
strictly above 0.5, factor 2.5 for confidence strictly above 0.3 and
at most 0.5, factor 2.0 at or below 0.3; in particular confidence
exactly 0.5 gives 2.5 and exactly 0.3 gives 2.0. -/
theorem amp_strict_thresholds (w : WordAnalysis) (e : Emotion)
    (he : emotionName e = w.emotion) :
    contrib w e = jsNum (probsOf w e) (1/8) * amp w.confidence ∧
    (1/2 < w.confidence → amp w.confidence = 3) ∧
    (3/10 < w.confidence → w.confidence ≤ 1/2 → amp w.confidence = 5/2) ∧
    (w.confidence ≤ 3/10 → amp w.confidence = 2) ∧
    amp (1/2) = 5/2 ∧ amp (3/10) = 2 := by
  refine ⟨by simp [contrib, he], ?_, ?_, ?_, by norm_num [amp], by norm_num [amp]⟩
  · intro h1
    rw [amp, if_pos h1]
  · intro h1 h2
    rw [amp, if_neg (by exact not_lt.mpr h2), if_pos h1]
  · intro h1
    rw [amp, if_neg (by push_neg; linarith), if_neg (by exact not_lt.mpr h1)]

/-- C2 witness: the thresholds applied at confidences 1, 2/5 and 1/4. -/
theorem amp_strict_thresholds_witness :
    contrib halfConfWord Emotion.joy =
      jsNum (probsOf halfConfWord Emotion.joy) (1/8) * amp halfConfWord.confidence ∧
    amp 1 = 3 ∧ amp (2/5) = 5/2 ∧ amp (1/4) = 2 := by
  have h := amp_strict_thresholds halfConfWord Emotion.joy (by decide)
  have h1 := amp_strict_thresholds ⟨"a", "a", "joy", 1, 1/2, 1/2, "neutral", true,
    "database", some halfJoyProbs⟩ Emotion.joy (by decide)
  have h2 := amp_strict_thresholds ⟨"a", "a", "joy", 2/5, 1/2, 1/2, "neutral", true,
    "database", some halfJoyProbs⟩ Emotion.joy (by decide)
  have h3 := amp_strict_thresholds ⟨"a", "a", "joy", 1/4, 1/2, 1/2, "neutral", true,
    "database", some halfJoyProbs⟩ Emotion.joy (by decide)
  exact ⟨h.1, h1.2.1 (by norm_num), h2.2.2.1 (by norm_num) (by norm_num),
    h3.2.2.2.1 (by norm_num)⟩

/-- C2 counterexample: a qualifying word with confidence exactly 0.5 and
dominant-category probability 1/2 contributes 1/2 × 2.5 = 5/4 to the
running total, not the 1/2 × 3 = 3/2 the claim requires. -/
theorem amp_at_half_counterexample :
    halfConfWord.confidence = 1/2 ∧
    emotionWeights [halfConfWord] Emotion.joy = 5/4 ∧
    ¬ emotionWeights [halfConfWord] Emotion.joy = (1/2 : ℚ) * 3 := by
  have h : emotionWeights [halfConfWord] Emotion.joy = 5/4 := by
    simp only [emotionWeights, List.foldl_cons, List.foldl_nil, contrib, probsOf,
      halfConfWord, halfJoyProbs, jsNum, amp, emotionName]
    norm_num
  exact ⟨rfl, h, by rw [h]; norm_num⟩

/-- C10: appending one more qualifying word extends the running total by
that word's `contrib`, and when the word's profile gives a category
probability 0 or omits the key, that contribution is 0.125 (amplified
exactly when the category is the word's own dominant one). -/
theorem zero_prob_defaults (cws : List WordAnalysis) (w : WordAnalysis)
    (e : Emotion)
    (h : probsOf w e = none ∨ probsOf w e = some 0) :
    emotionWeights (cws ++ [w]) e = emotionWeights cws e + contrib w e ∧
    contrib w e =
      (if emotionName e = w.emotion then (1/8 : ℚ) * amp w.confidence
       else (1/8 : ℚ)) := by
  constructor
  · simp [emotionWeights, List.foldl_append]
  · rcases h with h | h <;> simp [contrib, jsNum, h]

/-- C10 witness: a word missing its `disgust` key contributes 0.125 to
`disgust`. -/
theorem zero_prob_defaults_witness :
    emotionWeights [tieWordA, gappyWord] Emotion.disgust =
      emotionWeights [tieWordA] Emotion.disgust + contrib gappyWord Emotion.disgust ∧
    contrib gappyWord Emotion.disgust = 1/8 := by
  have h := zero_prob_defaults [tieWordA] gappyWord Emotion.disgust (by decide)
  refine ⟨h.1, ?_⟩
  rw [h.2]
  simp [gappyWord, emotionName]

/-- Helper: the `reduce((a, b) => f a > f b ? a : b)` idiom keeps the
accumulator only on a strict win, so over a list of categories listed in
strictly increasing index order it selects the LAST element attaining the
maximum. -/
theorem foldl_pickStep_spec (f : Emotion → ℚ) :
    ∀ (l : List Emotion) (a : Emotion),
      (a :: l).Pairwise (fun x y => emotionIdx x < emotionIdx y) →
      (l.foldl (pickStep f) a = a ∨ l.foldl (pickStep f) a ∈ l) ∧
      ∀ x ∈ a :: l,
        f x ≤ f (l.foldl (pickStep f) a) ∧
        (f x = f (l.foldl (pickStep f) a) →
          emotionIdx x ≤ emotionIdx (l.foldl (pickStep f) a)) := by
  intro l
  induction l with
  | nil =>
    intro a _
    refine ⟨Or.inl rfl, ?_⟩
    intro x hx
    simp only [List.mem_singleton] at hx
    subst hx
    exact ⟨le_refl _, fun _ => le_refl _⟩
  | cons b l ih =>
    intro a hp
    rcases List.pairwise_cons.mp hp with ⟨ha, hbl⟩
    have hab : emotionIdx a < emotionIdx b := ha b (List.mem_cons_self b l)
    simp only [List.foldl_cons]
    by_cases hgt : f a > f b
    · have hs : pickStep f a b = a := by rw [pickStep, if_pos hgt]
      rw [hs]
      have hal : (a :: l).Pairwise (fun x y => emotionIdx x < emotionIdx y) :=
        List.pairwise_cons.mpr
          ⟨fun x hx => ha x (List.mem_cons_of_mem b hx),
           (List.pairwise_cons.mp hbl).2⟩
      obtain ⟨hmem, hall⟩ := ih a hal
      refine ⟨?_, ?_⟩
      · rcases hmem with h | h
        · exact Or.inl h
        · exact Or.inr (List.mem_cons_of_mem b h)
      · intro x hx
        rcases List.mem_cons.mp hx with rfl | hx'
        · exact hall x (List.mem_cons_self x l)
        rcases List.mem_cons.mp hx' with rfl | hx''
        · have hra : f a ≤ f (l.foldl (pickStep f) a) :=
            (hall a (List.mem_cons_self a l)).1
          have hlt : f x < f (l.foldl (pickStep f) a) := lt_of_lt_of_le hgt hra
          exact ⟨le_of_lt hlt, fun heq => absurd heq (ne_of_lt hlt)⟩
        · exact hall x (List.mem_cons_of_mem a hx'')
    · have hs : pickStep f a b = b := by rw [pickStep, if_neg hgt]
      rw [hs]
      obtain ⟨hmem, hall⟩ := ih b hbl
      refine ⟨?_, ?_⟩
      · rcases hmem with h | h
        · exact Or.inr (by rw [h]; exact List.mem_cons_self b l)
        · exact Or.inr (List.mem_cons_of_mem b h)
      · intro x hx
        rcases List.mem_cons.mp hx with rfl | hx'
        · have hfb : f b ≤ f (l.foldl (pickStep f) b) :=
            (hall b (List.mem_cons_self b l)).1
          have hle : f x ≤ f b := not_lt.mp hgt
          refine ⟨le_trans hle hfb, fun _ => ?_⟩
          have hxr : emotionIdx x < emotionIdx (l.foldl (pickStep f) b) := by
            rcases hmem with h | h
            · rw [h]; exact hab
            · exact ha _ (List.mem_cons_of_mem b h)
          exact le_of_lt hxr
        · exact hall x hx'

/-- Helper: every category is in the reduce's key list. -/
theorem mem_reduce_list (e : Emotion) :
    e ∈ (Emotion.joy ::
      [Emotion.trust, Emotion.anticipation, Emotion.surprise, Emotion.anger,
       Emotion.fear, Emotion.sadness, Emotion.disgust]) := by
  cases e <;> simp

/-- Helper: `dominantOf f` is a maximizer of `f`, and among tied maximizers
it is the one latest in declaration order. -/
theorem dominantOf_spec (f : Emotion → ℚ) :
    (∀ e : Emotion, f e ≤ f (dominantOf f)) ∧
    (∀ e : Emotion, f e = f (dominantOf f) →
      emotionIdx e ≤ emotionIdx (dominantOf f)) := by
  have h := foldl_pickStep_spec f
    [Emotion.trust, Emotion.anticipation, Emotion.surprise, Emotion.anger,
     Emotion.fear, Emotion.sadness, Emotion.disgust]
    Emotion.joy (by decide)
  exact ⟨fun e => (h.2 e (mem_reduce_list e)).1,
         fun e => (h.2 e (mem_reduce_list e)).2⟩

/-- C3 (amended): with at least one qualifying word, the returned
distribution is the normalized weight vector, the returned
`overall_emotion` is an arg-max of it and its `confidence` is that
category's normalized weight — but among tied maxima the `reduce` of line
483 selects the LAST tied category in declaration order, not the first. -/
theorem overall_emotion_is_last_argmax (ws : List WordAnalysis)
    (h : confidentWords ws ≠ []) :
    (calculateOverallEmotion ws).emotions = normEmotions (confidentWords ws) ∧
    (calculateOverallEmotion ws).overall_emotion =
      emotionName (dominantOf (normEmotions (confidentWords ws))) ∧
    (calculateOverallEmotion ws).confidence =
      normEmotions (confidentWords ws)
        (dominantOf (normEmotions (confidentWords ws))) ∧
    (∀ e : Emotion,
      normEmotions (confidentWords ws) e ≤
        normEmotions (confidentWords ws)
          (dominantOf (normEmotions (confidentWords ws)))) ∧
    (∀ e : Emotion,
      normEmotions (confidentWords ws) e =
        normEmotions (confidentWords ws)
          (dominantOf (normEmotions (confidentWords ws))) →
      emotionIdx e ≤
        emotionIdx (dominantOf (normEmotions (confidentWords ws)))) := by
  have hne : (confidentWords ws).isEmpty = false := by
    rw [List.isEmpty_eq_false]
    exact h
  have hd := dominantOf_spec (normEmotions (confidentWords ws))
  refine ⟨?_, ?_, ?_, hd.1, hd.2⟩ <;>
    simp [calculateOverallEmotion, hne]

/-- Helper: a word whose dominant-category name differs from the iterated
category gets no amplification. -/
theorem contrib_eval_other (w : WordAnalysis) (e : Emotion)
    (he : emotionName e ≠ w.emotion) :
    contrib w e = jsNum (probsOf w e) (1/8) := by
  simp [contrib, he]

/-- Helper: a word whose dominant-category name matches the iterated
category is amplified. -/
theorem contrib_eval_dominant (w : WordAnalysis) (e : Emotion)
    (he : emotionName e = w.emotion) :
    contrib w e = jsNum (probsOf w e) (1/8) * amp w.confidence := by
  simp [contrib, he]

/-- Helper: both tie words pass the significance filter. -/
theorem confidentWords_tie :
    confidentWords [tieWordA, tieWordB] = [tieWordA, tieWordB] := by
  have ha : significant tieWordA = true := by
    rw [significant]
    norm_num [tieWordA]
  have hb : significant tieWordB = true := by
    rw [significant]
    norm_num [tieWordB]
  simp [confidentWords, List.filter_cons, ha, hb]

/-- Helper: the running totals for the tie pair, category by category. -/
theorem emotionWeights_tie :
    ∀ e : Emotion, emotionWeights [tieWordA, tieWordB] e = tieWeights e := by
  intro e
  simp only [emotionWeights, List.foldl_cons, List.foldl_nil, zero_add]
  cases e
  case joy =>
    rw [contrib_eval_dominant tieWordA _ (by decide),
      contrib_eval_other tieWordB _ (by decide)]
    norm_num [tieWordA, tieWordB, probsOf, tieProbsA, tieProbsB, jsNum,
      amp, tieWeights]
  case trust =>
    rw [contrib_eval_other tieWordA _ (by decide),
      contrib_eval_dominant tieWordB _ (by decide)]
    norm_num [tieWordA, tieWordB, probsOf, tieProbsA, tieProbsB, jsNum,
      amp, tieWeights]
  all_goals {
    rw [contrib_eval_other tieWordA _ (by decide),
      contrib_eval_other tieWordB _ (by decide)]
    norm_num [tieWordA, tieWordB, probsOf, tieProbsA, tieProbsB, jsNum,
      tieWeights] }

/-- Helper: each normalized category value for the tie pair. -/
theorem normEmotions_tie :
    ∀ e : Emotion,
      normEmotions [tieWordA, tieWordB] e = tieWeights e * (5/16) := by
  have htot : totalWeight [tieWordA, tieWordB] = 16/5 := by
    simp only [totalWeight, emotionOrder, List.map_cons, List.map_nil,
      List.sum_cons, List.sum_nil, emotionWeights_tie]
    norm_num [tieWeights]
  intro e
  rw [normEmotions, htot, if_pos (by norm_num), emotionWeights_tie]
  ring

/-- C3 witness: the two-word tie list qualifies. -/
theorem overall_emotion_is_last_argmax_witness :
    (calculateOverallEmotion [tieWordA, tieWordB]).overall_emotion =
      emotionName (dominantOf (normEmotions (confidentWords [tieWordA, tieWordB]))) ∧
    normEmotions (confidentWords [tieWordA, tieWordB]) Emotion.joy ≤
      normEmotions (confidentWords [tieWordA, tieWordB])
        (dominantOf (normEmotions (confidentWords [tieWordA, tieWordB]))) := by
  have h := overall_emotion_is_last_argmax [tieWordA, tieWordB]
    (by rw [confidentWords_tie]; exact List.cons_ne_nil _ _)
  exact ⟨h.2.1, h.2.2.2.1 Emotion.joy⟩

/-- C3 counterexample: with `tieWordA` and `tieWordB` the normalized
distribution ties `joy` and `trust` at the maximum 11/32, `joy` comes
first in declaration order, yet the returned `overall_emotion` is
`trust`. -/
theorem overall_emotion_tie_counterexample :
    (calculateOverallEmotion [tieWordA, tieWordB]).emotions Emotion.joy = 11/32 ∧
    (calculateOverallEmotion [tieWordA, tieWordB]).emotions Emotion.trust = 11/32 ∧
    (calculateOverallEmotion [tieWordA, tieWordB]).emotions Emotion.anticipation ≤ 11/32 ∧
    (calculateOverallEmotion [tieWordA, tieWordB]).emotions Emotion.surprise ≤ 11/32 ∧
    (calculateOverallEmotion [tieWordA, tieWordB]).emotions Emotion.anger ≤ 11/32 ∧
    (calculateOverallEmotion [tieWordA, tieWordB]).emotions Emotion.fear ≤ 11/32 ∧
    (calculateOverallEmotion [tieWordA, tieWordB]).emotions Emotion.sadness ≤ 11/32 ∧
    (calculateOverallEmotion [tieWordA, tieWordB]).emotions Emotion.disgust ≤ 11/32 ∧
    emotionIdx Emotion.joy < emotionIdx Emotion.trust ∧
    (calculateOverallEmotion [tieWordA, tieWordB]).overall_emotion = "trust" ∧
    (calculateOverallEmotion [tieWordA, tieWordB]).overall_emotion ≠ "joy" := by
  have hcw := confidentWords_tie
  have hne : (confidentWords [tieWordA, tieWordB]).isEmpty = false := by
    rw [hcw]
    rfl
  have hjoy : normEmotions [tieWordA, tieWordB] Emotion.joy = 11/32 := by
    rw [normEmotions_tie]
    norm_num [tieWeights]
  have htrust : normEmotions [tieWordA, tieWordB] Emotion.trust = 11/32 := by
    rw [normEmotions_tie]
    norm_num [tieWeights]
  have hemo : (calculateOverallEmotion [tieWordA, tieWordB]).emotions =
      normEmotions [tieWordA, tieWordB] := by
    simp [calculateOverallEmotion, hne, hcw]
  have hbound : ∀ e : Emotion, normEmotions [tieWordA, tieWordB] e ≤ 11/32 := by
    intro e
    rw [normEmotions_tie]
    cases e <;> norm_num [tieWeights]
  have hdom : dominantOf (normEmotions [tieWordA, tieWordB]) = Emotion.trust := by
    have hd := dominantOf_spec (normEmotions [tieWordA, tieWordB])
    have h1 : normEmotions [tieWordA, tieWordB]
        (dominantOf (normEmotions [tieWordA, tieWordB])) = 11/32 := by
      refine le_antisymm (hbound _) ?_
      rw [← htrust]
      exact hd.1 Emotion.trust
    have h2 := hd.2 Emotion.trust (by rw [htrust, h1])
    have hcases : ∀ x : Emotion,
        normEmotions [tieWordA, tieWordB] x = 11/32 →
        emotionIdx Emotion.trust ≤ emotionIdx x → x = Emotion.trust := by
      intro x hx hix
      cases x
      · exact absurd hix (by decide)
      · rfl
      all_goals {
        exfalso
        rw [normEmotions_tie] at hx
        norm_num [tieWeights] at hx }
    exact hcases _ h1 h2
  have hoe : (calculateOverallEmotion [tieWordA, tieWordB]).overall_emotion =
      emotionName (dominantOf (normEmotions [tieWordA, tieWordB])) := by
    simp [calculateOverallEmotion, hne, hcw]
  refine ⟨by rw [hemo]; exact hjoy, by rw [hemo]; exact htrust,
    by rw [hemo]; exact hbound _, by rw [hemo]; exact hbound _,
    by rw [hemo]; exact hbound _, by rw [hemo]; exact hbound _,
    by rw [hemo]; exact hbound _, by rw [hemo]; exact hbound _,
    by decide, ?_, ?_⟩
  · rw [hoe, hdom]
    rfl
  · rw [hoe, hdom]
    decide

/-- C6 (amended): with at least one qualifying word, the aggregate
polarity compares only the counts of positive- and negative-labelled
qualifying words (lines 491–503); neutral labels cast no vote, so a
positive/negative tie — including all-neutral input — yields `neutral`,
but a neutral plurality does not. -/
theorem sentiment_counts_pos_neg_only (ws : List WordAnalysis)
    (h : confidentWords ws ≠ []) :
    (calculateOverallEmotion ws).sentiment.polarity =
      (if ((confidentWords ws).filter (fun w => w.sentiment == "positive")).length >
          ((confidentWords ws).filter (fun w => w.sentiment == "negative")).length
       then "positive"
       else if ((confidentWords ws).filter (fun w => w.sentiment == "negative")).length >
          ((confidentWords ws).filter (fun w => w.sentiment == "positive")).length
       then "negative"
       else "neutral") := by
  have hne : (confidentWords ws).isEmpty = false := by
    rw [List.isEmpty_eq_false]
    exact h
  simp [calculateOverallEmotion, hne]

/-- Helper: the three sentiment-example words all qualify. -/
theorem confidentWords_sentimentTriple :
    confidentWords [posWord, neutralWordA, neutralWordB] =
      [posWord, neutralWordA, neutralWordB] := by
  have hp : significant posWord = true := by
    rw [significant]
    norm_num [posWord]
  have ha : significant neutralWordA = true := by
    rw [significant]
    norm_num [neutralWordA]
  have hb : significant neutralWordB = true := by
    rw [significant]
    norm_num [neutralWordB]
  simp [confidentWords, List.filter_cons, hp, ha, hb]

/-- C6 witness: the polarity formula applied to one positive and two
neutral words. -/
theorem sentiment_counts_pos_neg_only_witness :
    (calculateOverallEmotion [posWord, neutralWordA, neutralWordB]).sentiment.polarity =
      (if ((confidentWords [posWord, neutralWordA, neutralWordB]).filter
            (fun w => w.sentiment == "positive")).length >
          ((confidentWords [posWord, neutralWordA, neutralWordB]).filter
            (fun w => w.sentiment == "negative")).length
       then "positive"
       else if ((confidentWords [posWord, neutralWordA, neutralWordB]).filter
            (fun w => w.sentiment == "negative")).length >
          ((confidentWords [posWord, neutralWordA, neutralWordB]).filter
            (fun w => w.sentiment == "positive")).length
       then "negative"
       else "neutral") :=
  sentiment_counts_pos_neg_only [posWord, neutralWordA, neutralWordB]
    (by rw [confidentWords_sentimentTriple]; exact List.cons_ne_nil _ _)

/-- C6 counterexample: among the three qualifying words the neutral label
outnumbers both others (2 neutral, 1 positive, 0 negative), so a
plurality vote over all three labels gives `neutral`, yet the code
returns `positive`. -/
theorem sentiment_majority_counterexample :
    ((confidentWords [posWord, neutralWordA, neutralWordB]).filter
      (fun w => w.sentiment == "neutral")).length = 2 ∧
    ((confidentWords [posWord, neutralWordA, neutralWordB]).filter
      (fun w => w.sentiment == "positive")).length = 1 ∧
    ((confidentWords [posWord, neutralWordA, neutralWordB]).filter
      (fun w => w.sentiment == "negative")).length = 0 ∧
    (calculateOverallEmotion [posWord, neutralWordA, neutralWordB]).sentiment.polarity =
      "positive" ∧
    (calculateOverallEmotion [posWord, neutralWordA, neutralWordB]).sentiment.polarity ≠
      "neutral" := by
  have hcw := confidentWords_sentimentTriple
  have hne : (confidentWords [posWord, neutralWordA, neutralWordB]).isEmpty = false := by
    rw [hcw]
    rfl
  have hpol :
      (calculateOverallEmotion [posWord, neutralWordA, neutralWordB]).sentiment.polarity =
        "positive" := by
    simp only [calculateOverallEmotion, hne, Bool.false_eq_true, if_false]
    rw [hcw]
    simp [List.filter_cons, posWord, neutralWordA, neutralWordB]
  refine ⟨?_, ?_, ?_, hpol, by rw [hpol]; decide⟩ <;>
    · rw [hcw]
      simp [List.filter_cons, posWord, neutralWordA, neutralWordB]

/-- C4: the trend is `stable` for fewer than 4 messages regardless of
content; with at least 4 messages the list splits at the floor midpoint,
each half's mean (fallback-adjusted) valence is taken, and the trend is
`improving` iff the difference exceeds 0.1, `declining` iff it is below
−0.1, `stable` otherwise. -/
theorem sentimentTrend_halves (msgs : List SessionMessage) :
    (msgs.length < 4 → sentimentTrend msgs = "stable") ∧
    (4 ≤ msgs.length →
      sentimentTrend msgs =
        (if ((msgs.drop (msgs.length / 2)).map msgValence).sum /
              ((msgs.length - msgs.length / 2 : ℕ) : ℚ) -
            ((msgs.take (msgs.length / 2)).map msgValence).sum /
              ((msgs.length / 2 : ℕ) : ℚ) > 1/10
         then "improving"
         else if ((msgs.drop (msgs.length / 2)).map msgValence).sum /
              ((msgs.length - msgs.length / 2 : ℕ) : ℚ) -
            ((msgs.take (msgs.length / 2)).map msgValence).sum /
              ((msgs.length / 2 : ℕ) : ℚ) < -(1/10)
         then "declining"
         else "stable")) := by
  constructor
  · intro h
    rw [sentimentTrend, if_neg (by omega)]
  · intro h
    have hmid : msgs.length / 2 ≤ msgs.length := Nat.div_le_self _ _
    rw [sentimentTrend, if_pos h]
    simp only [List.length_take, List.length_drop, Nat.min_eq_left hmid]

/-- C4 witness: two extreme messages stay `stable`; the five-message
valence sequence 0.3, 0.3, 0.3, 0.8, 0.8 is `improving`. -/
theorem sentimentTrend_halves_witness :
    sentimentTrend twoMsgs = "stable" ∧
    sentimentTrend fiveMsgs = "improving" := by
  constructor
  · exact (sentimentTrend_halves twoMsgs).1 (by decide)
  · have h := (sentimentTrend_halves fiveMsgs).2 (by decide)
    rw [h]
    norm_num [fiveMsgs, mkTrendMsg, msgValence, jsNum]

/-- C5 (amended): `saveWordToDatabase` has upsert-overwrite semantics:
after a save the stored row for that word is the new inference result
(with falsy fields defaulted), whatever was there before, and every
other word's row is untouched. -/
theorem saveWordToDatabase_overwrites (store : String → Option DBRow)
    (word : String) (d : SaveData) :
    saveWordToDatabase store word d word = some (savedRow d) ∧
    ∀ w, w ≠ word → saveWordToDatabase store word d w = store w := by
  refine ⟨by simp [saveWordToDatabase], fun w hw => ?_⟩
  simp [saveWordToDatabase, hw]

/-- C5 witness: saving over the curated `happy` row. -/
theorem saveWordToDatabase_overwrites_witness :
    saveWordToDatabase wordStoreEx "happy" inferredData "happy" =
      some (savedRow inferredData) ∧
    saveWordToDatabase wordStoreEx "happy" inferredData "sad" =
      wordStoreEx "sad" :=
  ⟨(saveWordToDatabase_overwrites wordStoreEx "happy" inferredData).1,
   (saveWordToDatabase_overwrites wordStoreEx "happy" inferredData).2 "sad"
     (by decide)⟩

/-- C5 counterexample: `happy` already has a curated profile, yet saving
an inference result replaces it — the stored profile does not stay
unchanged. -/
theorem saveWord_replaces_existing_counterexample :
    wordStoreEx "happy" = some curatedRow ∧
    saveWordToDatabase wordStoreEx "happy" inferredData "happy" ≠
      some curatedRow := by
  refine ⟨rfl, fun h => ?_⟩
  simp only [saveWordToDatabase, if_pos rfl, if_true, Option.some.injEq] at h
  have h2 := congrArg DBRow.sentiment_polarity h
  simp [savedRow, inferredData, curatedRow, jsStr] at h2

/-- C7: a warm-cache resolution returns the cached profile with
provenance `memory_cache`, issues zero database queries, leaves the
cache unchanged, never becomes an inference candidate, and resolving
again returns the identical result. -/
theorem getWordData_memory_cache (cache : String → Option EmotionData)
    (db : String → Option DBRow) (w : String) (d : EmotionData)
    (h : cache (toLowerCase w) = some d) :
    getWordData cache db w = ⟨some d, "memory_cache", cache, 0⟩ ∧
    needsInference (getWordData cache db w) = false ∧
    getWordData (getWordData cache db w).cache db w = getWordData cache db w := by
  have h1 : getWordData cache db w = ⟨some d, "memory_cache", cache, 0⟩ := by
    rw [getWordData]
    simp [h]
  refine ⟨h1, by rw [h1]; rfl, ?_⟩
  rw [h1]
  exact h1

/-- C7 witness: resolving `HaPpy` against a cache warmed with `happy`. -/
theorem getWordData_memory_cache_witness :
    cacheEx (toLowerCase "HaPpy") = some cachedData ∧
    getWordData cacheEx emptyDb "HaPpy" =
      ⟨some cachedData, "memory_cache", cacheEx, 0⟩ ∧
    getWordData (getWordData cacheEx emptyDb "HaPpy").cache emptyDb "HaPpy" =
      getWordData cacheEx emptyDb "HaPpy" := by
  have h : cacheEx (toLowerCase "HaPpy") = some cachedData := rfl
  have hm := getWordData_memory_cache cacheEx emptyDb "HaPpy" cachedData h
  exact ⟨h, hm.1, hm.2.2⟩

/-- C8 (amended): ending an active session with zero messages produces
the fixed neutral summary (neutral mood, confidence 0.125, stable trend,
0.5 averages, zero breakdown) — but the duration is the floor of the
elapsed wall-clock seconds since the session started, not zero. -/
theorem endSession_zero_messages (s : SessionRow) (now : ℤ)
    (h : s.status = "active") :
    endSession s [] now = .ok (endedNeutralRow s now, neutralSummary s now) := by
  rw [endSession, if_neg (by simp [h])]
  simp [endedNeutralRow, neutralSummary]

/-- C8 witness: the active example session ended at the instant it
started. -/
theorem endSession_zero_messages_witness :
    endSession activeSession [] 0 =
      .ok (endedNeutralRow activeSession 0, neutralSummary activeSession 0) :=
  endSession_zero_messages activeSession 0 rfl

/-- C8 counterexample: the same zero-message session ended 5 seconds
after it started reports duration 5, not 0. -/
theorem endSession_duration_counterexample :
    activeSession.status = "active" ∧
    activeSession.started_at = 0 ∧
    (endSession activeSession [] 5000).toOption.map
      (fun p => p.2.duration_seconds) = some 5 ∧
    ¬ (endSession activeSession [] 5000).toOption.map
      (fun p => p.2.duration_seconds) = some 0 := by
  have he : (endSession activeSession [] 5000).toOption.map
      (fun p => p.2.duration_seconds) = some 5 := by
    rw [endSession, if_neg (by simp [activeSession])]
    rfl
  exact ⟨rfl, rfl, he, by rw [he]; decide⟩

/-- C9: ending a session whose status is not `active` fails with
`Session is already ended` and leaves the session store — hence the
stored record with all its summary fields — completely unchanged. -/
theorem applyEndSession_already_ended (store : String → Option SessionRow)
    (sid : String) (msgs : List SessionMessage) (now : ℤ) (s : SessionRow)
    (h1 : store sid = some s) (h2 : s.status ≠ "active") :
    applyEndSession store sid msgs now =
      (store, .error "Session is already ended") := by
  have he : endSession s msgs now = .error "Session is already ended" := by
    rw [endSession, if_pos h2]
  simp [applyEndSession, h1, he]

/-- C9 witness: re-ending the already-ended example session. -/
theorem applyEndSession_already_ended_witness :
    sessionStoreEx "sess_2" = some endedSession ∧
    endedSession.status ≠ "active" ∧
    applyEndSession sessionStoreEx "sess_2" [] 0 =
      (sessionStoreEx, .error "Session is already ended") :=
  ⟨rfl, by decide,
   applyEndSession_already_ended sessionStoreEx "sess_2" [] 0 endedSession rfl
     (by decide)⟩

end Circuit
